import Mathlib

/-!
Verification of the SupportFlow ticket simulator (src/app.py).

The dispatch core of the program is embedded shallowly:

* `pyStr` models Python's `str()` coercion on the scalar values a CSV cell
  can hold (strings, integers, booleans, missing markers).
* A `Row` is a pandas row viewed as a map from column name to cell value;
  a `DataFrame` is its column list together with its rows.
* `validate_csv_structure`, `create_ticket_payload`, `send_ticket` and
  `send_tickets_process` are direct translations of the functions of the
  same names in src/app.py.
* Network I/O is made explicit: `requests.post` either completes with an
  `HttpResponse` or raises a `requests.exceptions.RequestException`
  carrying a message, so its result is `Except String HttpResponse`,
  supplied per iteration by a `NetOracle`.  `random.uniform` is supplied
  by a `RandOracle` taking the two bounds and the iteration index.
* Streamlit display calls made by the dispatch loop are recorded as an
  `Event` trace: the per-iteration progress-bar/status update
  (lines 152-154), the payload expander (lines 160-161), the per-item
  success/error message (lines 169/173) and the inter-send sleep
  (line 178).  The post-loop `progress_bar.progress(1.0)` /
  "Process completed" status (lines 181-182) is a fixed finalization
  step, not a `(completed, total)` progress notification, and is
  recorded as the distinct `processCompleted` event.
-/

namespace SupportFlow

/-- A scalar value held by one CSV cell, as pandas hands it to the app. -/
inductive PyValue where
  | str (s : String)
  | int (n : Int)
  | bool (b : Bool)
  | none
deriving DecidableEq

/-- Python's `str()` coercion on a cell value. -/
def pyStr : PyValue → String
  | .str s => s
  | .int n => toString n
  | .bool b => if b then "True" else "False"
  | .none => "None"

/-- One row of the dataset (`pd.Series`), indexed by column name. -/
abbrev Row := String → PyValue

/-- The loaded dataset (`pd.DataFrame`): its column names and its rows. -/
structure DataFrame where
  columns : List String
  rows : List Row

/-- `required_columns` of `validate_csv_structure` (src/app.py line 12). -/
def required_columns : List String :=
  ["id", "channel", "customer_name", "subject", "fullMessage", "sentiment_name"]

/-- The `missing_columns` list computed inside `validate_csv_structure`
(src/app.py line 13): required columns absent from the dataframe. -/
def missing_columns (df : DataFrame) : List String :=
  required_columns.filter (fun col => !(df.columns.contains col))

/-- `validate_csv_structure` (src/app.py lines 10-19): true iff no required
column is missing.  The missing list is what the error message reports. -/
def validate_csv_structure (df : DataFrame) : Bool :=
  (missing_columns df).isEmpty

structure Customer where
  name : String
deriving DecidableEq

structure Content where
  subject : String
  body : String
deriving DecidableEq

structure AiAnalysis where
  sentiment : String
deriving DecidableEq

/-- The ticket JSON payload shape (src/app.py lines 23-36). -/
structure TicketPayload where
  external_id : String
  source_channel : String
  customer : Customer
  content : Content
  ai_analysis : AiAnalysis
deriving DecidableEq

/-- `create_ticket_payload` (src/app.py lines 21-36): every field is
`str(...)` of the corresponding cell of the row. -/
def create_ticket_payload (row : Row) : TicketPayload :=
  { external_id := pyStr (row "id")
    source_channel := pyStr (row "channel")
    customer := { name := pyStr (row "customer_name") }
    content := { subject := pyStr (row "subject")
                 body := pyStr (row "fullMessage") }
    ai_analysis := { sentiment := pyStr (row "sentiment_name") } }

/-- A completed HTTP exchange: status code and raw response text. -/
structure HttpResponse where
  status_code : Nat
  text : String
deriving DecidableEq

/-- Result of the underlying `requests.post` call: either a completed
exchange, or a `RequestException` carrying its string description. -/
abbrev HttpResult := Except String HttpResponse

/-- `send_ticket` (src/app.py lines 38-49).  The `try/except` around
`requests.post` is explicit in the `HttpResult` argument: a completed
exchange returns `(True, status_code, text)` whatever the status code; a
raised `RequestException` is caught and returns `(False, 0, str(e))`, so
the function never propagates a transport failure to its caller. -/
def send_ticket (payload : TicketPayload) (endpoint : String)
    (result : HttpResult) : Bool × Nat × String :=
  match payload, endpoint, result with
  | _, _, .ok response => (true, response.status_code, response.text)
  | _, _, .error e => (false, 0, e)

/-- Observable display actions of `send_tickets_process`, in emission
order. -/
inductive Event where
  | progress (completed total : Nat)
  | payloadReady (payload : TicketPayload)
  | sendSuccess (external_id : String) (status_code : Nat)
  | sendFailure (external_id : String) (response_text : String)
  | sleep (duration : ℚ)
  | processCompleted
deriving DecidableEq

/-- Per-iteration outcome of `requests.post`, indexed by loop index. -/
abbrev NetOracle := Nat → HttpResult

/-- `random.uniform`: given the two bounds and the iteration index,
the drawn delay. -/
abbrev RandOracle := ℚ → ℚ → Nat → ℚ

/-- The `for i, (idx, row) in enumerate(df.iterrows())` loop of
`send_tickets_process` (src/app.py lines 150-178), started at index `i`.
Returns the final `(successful_sends, failed_sends)` contribution of the
remaining rows and the emitted events.  Inside one iteration the source
emits, in order: the progress update for `i + 1` of `total_tickets`
(lines 152-154), the payload expander (lines 160-161), the per-item
success or error message (lines 166-173), and, when `i` is not the last
index, the random sleep (lines 176-178). -/
def sendLoop (endpoint : String) (delay_min delay_max : ℚ) (net : NetOracle)
    (rand : RandOracle) (total_tickets : Nat) :
    List Row → Nat → Nat × Nat × List Event
  | [], _ => (0, 0, [])
  | row :: rest, i =>
    let payload := create_ticket_payload row
    let res := send_ticket payload endpoint (net i)
    let itemEvent : Event :=
      if res.1 then .sendSuccess payload.external_id res.2.1
      else .sendFailure payload.external_id res.2.2
    let sleepBlock : List Event :=
      if i < total_tickets - 1 then [.sleep (rand delay_min delay_max i)]
      else []
    let restRes := sendLoop endpoint delay_min delay_max net rand
      total_tickets rest (i + 1)
    ((if res.1 then restRes.1 + 1 else restRes.1),
     (if res.1 then restRes.2.1 else restRes.2.1 + 1),
     .progress (i + 1) total_tickets :: .payloadReady payload :: itemEvent ::
       (sleepBlock ++ restRes.2.2))

/-- Aggregate state of one run at the end of `send_tickets_process`. -/
structure RunResult where
  total_tickets : Nat
  successful_sends : Nat
  failed_sends : Nat
  success_rate : ℚ
  events : List Event
  all_success_message : Bool
  error_warning_message : Bool

/-- `send_tickets_process` (src/app.py lines 137-200): run the loop over
all rows, then finalize:  `success_rate = (successful_sends /
total_tickets) * 100 if total_tickets > 0 else 0` (lines 193-194),
balloons plus the all-success message iff `successful_sends ==
total_tickets` (lines 196-198), else the warning message iff
`failed_sends > 0` (lines 199-200). -/
def send_tickets_process (df : DataFrame) (endpoint : String)
    (delay_min delay_max : ℚ) (net : NetOracle) (rand : RandOracle) :
    RunResult :=
  let total_tickets := df.rows.length
  let res := sendLoop endpoint delay_min delay_max net rand total_tickets
    df.rows 0
  { total_tickets := total_tickets
    successful_sends := res.1
    failed_sends := res.2.1
    success_rate :=
      if total_tickets > 0 then
        ((res.1 : ℚ) / (total_tickets : ℚ)) * 100
      else 0
    events := res.2.2 ++ [Event.processCompleted]
    all_success_message := res.1 == total_tickets
    error_warning_message := !(res.1 == total_tickets) && decide (0 < res.2.1) }

/-- Outcome of `main`'s processing branch (src/app.py lines 104-135). -/
inductive RunOutput where
  | schemaError (missing : List String)
  | dispatched (result : RunResult)

/-- The gate in `main` (src/app.py lines 108-130): `send_tickets_process`
runs only under `if validate_csv_structure(df):` (with an endpoint entered
and the send button pressed, both assumed here); otherwise the schema
error listing the missing columns is shown and nothing is dispatched. -/
def process_csv (df : DataFrame) (endpoint : String)
    (delay_min delay_max : ℚ) (net : NetOracle) (rand : RandOracle) :
    RunOutput :=
  if validate_csv_structure df then
    .dispatched (send_tickets_process df endpoint delay_min delay_max net rand)
  else
    .schemaError (missing_columns df)

/-- Is this event a per-item delivery-result message (one per call to
`send_ticket`)? -/
def Event.isDeliveryResult : Event → Bool
  | .sendSuccess _ _ => true
  | .sendFailure _ _ => true
  | _ => false

def Event.isProgressEvent : Event → Bool
  | .progress _ _ => true
  | _ => false

def Event.isSleepEvent : Event → Bool
  | .sleep _ => true
  | _ => false

/-- The per-item delivery-result events of a trace. -/
def deliveryEvents (evs : List Event) : List Event :=
  evs.filter Event.isDeliveryResult

/-- The `(completed, total)` progress events of a trace. -/
def progressEvents (evs : List Event) : List Event :=
  evs.filter Event.isProgressEvent

/-- The inter-send sleep events of a trace. -/
def sleepEvents (evs : List Event) : List Event :=
  evs.filter Event.isSleepEvent

/-- Did the HTTP exchange complete (no exception raised)? -/
def transportOk : HttpResult → Bool
  | .ok _ => true
  | .error _ => false

/-- The per-item event the loop emits for row `row` at index `i`: a
success message with the external id and status code whenever the
exchange completed (whatever the status code), an error message with the
external id and the exception text otherwise. -/
def expectedItemEvent (net : NetOracle) (i : Nat) (row : Row) : Event :=
  match net i with
  | .ok response => .sendSuccess (pyStr (row "id")) response.status_code
  | .error e => .sendFailure (pyStr (row "id")) e

/-- The full event block of the iteration at index `i` on row `row`. -/
def iterBlock (delay_min delay_max : ℚ) (net : NetOracle)
    (rand : RandOracle) (total_tickets : Nat) (p : Nat × Row) : List Event :=
  [.progress (p.1 + 1) total_tickets,
   .payloadReady (create_ticket_payload p.2),
   expectedItemEvent net p.1 p.2] ++
    (if p.1 < total_tickets - 1 then [.sleep (rand delay_min delay_max p.1)]
     else [])

/-- The external id carried by a per-item delivery-result event. -/
def Event.externalId : Event → String
  | .sendSuccess eid _ => eid
  | .sendFailure eid _ => eid
  | _ => ""

/-- Number of delivery attempts (per-item result events) of a `main`
outcome: zero when validation blocked the run. -/
def deliveryAttempts : RunOutput → Nat
  | .schemaError _ => 0
  | .dispatched result => (deliveryEvents result.events).length

/-! ### Concrete inputs used by counterexamples and witnesses -/

/-- A dataset row whose `id` cell is the integer 1 and whose other cells
hold the text "x". -/
def exRow1 : Row := fun c => if c = "id" then .int 1 else .str "x"

/-- A one-row dataset with all required columns. -/
def exDf1 : DataFrame := { columns := required_columns, rows := [exRow1] }

/-- A two-row dataset with all required columns. -/
def exDf2 : DataFrame := { columns := required_columns, rows := [exRow1, exRow1] }

/-- A network oracle: every POST completes with status 200, body "OK". -/
def net200 : NetOracle := fun _ => .ok { status_code := 200, text := "OK" }

/-- A uniform sampler that always draws the lower bound: a legitimate
refinement of `random.uniform`. -/
def randMin : RandOracle := fun x _ _ => x

/-- The payload built from `exRow1`. -/
def exPayload1 : TicketPayload := create_ticket_payload exRow1

/-! ### Structural lemmas about the dispatch loop -/

/-- The event trace of the loop is the concatenation of the per-iteration
blocks, one per row, indexed from the starting index. -/
lemma sendLoop_events (endpoint : String) (delay_min delay_max : ℚ)
    (net : NetOracle) (rand : RandOracle) (total_tickets : Nat)
    (rows : List Row) : ∀ i : Nat,
    (sendLoop endpoint delay_min delay_max net rand total_tickets rows i).2.2 =
      (List.enumFrom i rows).flatMap
        (iterBlock delay_min delay_max net rand total_tickets) := by
  induction rows with
  | nil => intro i; rfl
  | cons row rest ih =>
    intro i
    cases h : net i with
    | ok response =>
      simp [sendLoop, iterBlock, expectedItemEvent, send_ticket, h, ih (i + 1),
        List.enumFrom, create_ticket_payload]
    | error e =>
      simp [sendLoop, iterBlock, expectedItemEvent, send_ticket, h, ih (i + 1),
        List.enumFrom, create_ticket_payload]

/-- The success counter counts exactly the iterations whose HTTP exchange
completed. -/
lemma sendLoop_success_count (endpoint : String) (delay_min delay_max : ℚ)
    (net : NetOracle) (rand : RandOracle) (total_tickets : Nat)
    (rows : List Row) : ∀ i : Nat,
    (sendLoop endpoint delay_min delay_max net rand total_tickets rows i).1 =
      (List.enumFrom i rows).countP (fun p => transportOk (net p.1)) := by
  induction rows with
  | nil => intro i; rfl
  | cons row rest ih =>
    intro i
    cases h : net i with
    | ok response =>
      simp [sendLoop, send_ticket, h, ih (i + 1), List.enumFrom,
        List.countP_cons, transportOk]
    | error e =>
      simp [sendLoop, send_ticket, h, ih (i + 1), List.enumFrom,
        List.countP_cons, transportOk]

/-- The failure counter counts exactly the iterations whose HTTP exchange
raised. -/
lemma sendLoop_failure_count (endpoint : String) (delay_min delay_max : ℚ)
    (net : NetOracle) (rand : RandOracle) (total_tickets : Nat)
    (rows : List Row) : ∀ i : Nat,
    (sendLoop endpoint delay_min delay_max net rand total_tickets rows i).2.1 =
      (List.enumFrom i rows).countP (fun p => !transportOk (net p.1)) := by
  induction rows with
  | nil => intro i; rfl
  | cons row rest ih =>
    intro i
    cases h : net i with
    | ok response =>
      simp [sendLoop, send_ticket, h, ih (i + 1), List.enumFrom,
        List.countP_cons, transportOk]
    | error e =>
      simp [sendLoop, send_ticket, h, ih (i + 1), List.enumFrom,
        List.countP_cons, transportOk]

/-- Every row is counted exactly once, as a success or as a failure. -/
lemma sendLoop_count_sum (endpoint : String) (delay_min delay_max : ℚ)
    (net : NetOracle) (rand : RandOracle) (total_tickets : Nat)
    (rows : List Row) : ∀ i : Nat,
    (sendLoop endpoint delay_min delay_max net rand total_tickets rows i).1 +
      (sendLoop endpoint delay_min delay_max net rand total_tickets rows i).2.1 =
      rows.length := by
  induction rows with
  | nil => intro i; rfl
  | cons row rest ih =>
    intro i
    have hr := ih (i + 1)
    cases h : net i with
    | ok response =>
      simp [sendLoop, send_ticket, h]
      omega
    | error e =>
      simp [sendLoop, send_ticket, h]
      omega

/-- Filtering the per-iteration blocks for delivery-result events keeps
exactly the one per-item event of each iteration. -/
lemma deliveryEvents_flatMap (delay_min delay_max : ℚ) (net : NetOracle)
    (rand : RandOracle) (total_tickets : Nat) :
    ∀ l : List (Nat × Row),
    deliveryEvents (l.flatMap (iterBlock delay_min delay_max net rand total_tickets)) =
      l.map (fun p => expectedItemEvent net p.1 p.2) := by
  intro l
  induction l with
  | nil => rfl
  | cons p l ih =>
    cases h : net p.1 with
    | ok response =>
      simp [deliveryEvents, iterBlock, expectedItemEvent, h,
        List.filter_append, Event.isDeliveryResult, ih,
        deliveryEvents] at ih ⊢
      split <;> simp [Event.isDeliveryResult, ih]
    | error e =>
      simp [deliveryEvents, iterBlock, expectedItemEvent, h,
        List.filter_append, Event.isDeliveryResult, ih,
        deliveryEvents] at ih ⊢
      split <;> simp [Event.isDeliveryResult, ih]

/-- Filtering the per-iteration blocks for progress events keeps exactly
the one progress event of each iteration. -/
lemma progressEvents_flatMap (delay_min delay_max : ℚ) (net : NetOracle)
    (rand : RandOracle) (total_tickets : Nat) :
    ∀ l : List (Nat × Row),
    progressEvents (l.flatMap (iterBlock delay_min delay_max net rand total_tickets)) =
      l.map (fun p => Event.progress (p.1 + 1) total_tickets) := by
  intro l
  induction l with
  | nil => rfl
  | cons p l ih =>
    cases h : net p.1 with
    | ok response =>
      simp [progressEvents, iterBlock, expectedItemEvent, h,
        List.filter_append, Event.isProgressEvent, ih,
        progressEvents] at ih ⊢
      split <;> simp [Event.isProgressEvent, ih]
    | error e =>
      simp [progressEvents, iterBlock, expectedItemEvent, h,
        List.filter_append, Event.isProgressEvent, ih,
        progressEvents] at ih ⊢
      split <;> simp [Event.isProgressEvent, ih]

/-- The sleeps of the loop started at index `i` over the remaining rows,
when `i + rows.length` equals the row count of the run: one sleep per
iteration except the last, with the `random.uniform` draw of that
iteration. -/
lemma sleepEvents_sendLoop (endpoint : String) (delay_min delay_max : ℚ)
    (net : NetOracle) (rand : RandOracle) :
    ∀ (rows : List Row) (i total_tickets : Nat),
    i + rows.length = total_tickets →
    sleepEvents
        (sendLoop endpoint delay_min delay_max net rand total_tickets rows i).2.2 =
      (List.range (rows.length - 1)).map
        (fun k => Event.sleep (rand delay_min delay_max (i + k))) := by
  intro rows
  induction rows with
  | nil => intro i total_tickets h; rfl
  | cons row rest ih =>
    intro i total_tickets h
    cases rest with
    | nil =>
      have hc : ¬ i < total_tickets - 1 := by
        simp at h; omega
      cases hn : net i <;>
        simp [sleepEvents, sendLoop, send_ticket, hn, Event.isSleepEvent, hc]
    | cons row2 rest2 =>
      have hc : i < total_tickets - 1 := by
        simp at h; omega
      have hrec := ih (i + 1) total_tickets (by simp at h ⊢; omega)
      have hshift : ∀ k : Nat, i + 1 + k = i + (k + 1) := fun k => by omega
      cases hn : net i <;>
        simp [sleepEvents, sendLoop, send_ticket, hn, Event.isSleepEvent, hc,
          hrec, List.range_succ_eq_map, List.map_map, Function.comp,
          Nat.succ_eq_add_one, hshift] at hrec ⊢ <;>
        simp [sleepEvents, hrec, List.map_map, Function.comp,
          Nat.succ_eq_add_one, hshift]

/-- Mapping a function of the index over an enumeration. -/
lemma map_fst_enumFrom {α : Type} (f : Nat → α) :
    ∀ (l : List Row) (i : Nat),
    (List.enumFrom i l).map (fun p => f p.1) =
      (List.range l.length).map (fun k => f (i + k)) := by
  intro l
  induction l with
  | nil => intro i; rfl
  | cons row rest ih =>
    intro i
    have hshift : ∀ k : Nat, i + 1 + k = i + (k + 1) := fun k => by omega
    simp [List.enumFrom, ih (i + 1), List.range_succ_eq_map, List.map_map,
      Function.comp, Nat.succ_eq_add_one, hshift]

/-- Mapping a function of the row over an enumeration. -/
lemma map_snd_enumFrom {α : Type} (g : Row → α) :
    ∀ (l : List Row) (i : Nat),
    (List.enumFrom i l).map (fun p => g p.2) = l.map g := by
  intro l
  induction l with
  | nil => intro i; rfl
  | cons row rest ih => intro i; simp [List.enumFrom, ih (i + 1)]

/-- The full trace of one run: the per-iteration blocks in row order,
then the finalization event. -/
lemma send_tickets_process_events (df : DataFrame) (endpoint : String)
    (delay_min delay_max : ℚ) (net : NetOracle) (rand : RandOracle) :
    (send_tickets_process df endpoint delay_min delay_max net rand).events =
      (List.enumFrom 0 df.rows).flatMap
          (iterBlock delay_min delay_max net rand df.rows.length) ++
        [Event.processCompleted] := by
  simp [send_tickets_process, sendLoop_events]

lemma send_tickets_process_successful (df : DataFrame) (endpoint : String)
    (delay_min delay_max : ℚ) (net : NetOracle) (rand : RandOracle) :
    (send_tickets_process df endpoint delay_min delay_max net rand).successful_sends =
      (List.enumFrom 0 df.rows).countP (fun p => transportOk (net p.1)) := by
  simp [send_tickets_process, sendLoop_success_count]

lemma send_tickets_process_failed (df : DataFrame) (endpoint : String)
    (delay_min delay_max : ℚ) (net : NetOracle) (rand : RandOracle) :
    (send_tickets_process df endpoint delay_min delay_max net rand).failed_sends =
      (List.enumFrom 0 df.rows).countP (fun p => !transportOk (net p.1)) := by
  simp [send_tickets_process, sendLoop_failure_count]

/-- The per-iteration progress events of the loop started at index `i`:
one per row, with `completed` running up from `i + 1`. -/
lemma progressEvents_sendLoop (endpoint : String) (delay_min delay_max : ℚ)
    (net : NetOracle) (rand : RandOracle) (total_tickets : Nat) :
    ∀ (rows : List Row) (i : Nat),
    progressEvents
        (sendLoop endpoint delay_min delay_max net rand total_tickets rows i).2.2 =
      (List.range rows.length).map
        (fun k => Event.progress (i + k + 1) total_tickets) := by
  intro rows
  induction rows with
  | nil => intro i; rfl
  | cons row rest ih =>
    intro i
    have hshift : ∀ k : Nat, i + 1 + k = i + (k + 1) := fun k => by omega
    have hrec := ih (i + 1)
    cases hn : net i with
    | ok response =>
      simp [progressEvents, sendLoop, send_ticket, hn, Event.isProgressEvent,
        List.range_succ_eq_map, List.map_map, Function.comp_def,
        Nat.succ_eq_add_one, hshift] at hrec ⊢
      split <;> simp [Event.isProgressEvent, hrec]
    | error e =>
      simp [progressEvents, sendLoop, send_ticket, hn, Event.isProgressEvent,
        List.range_succ_eq_map, List.map_map, Function.comp_def,
        Nat.succ_eq_add_one, hshift] at hrec ⊢
      split <;> simp [Event.isProgressEvent, hrec]

/-- The trace of one run is the loop trace followed by the finalization
event (src/app.py lines 181-182). -/
lemma process_events_def (df : DataFrame) (endpoint : String)
    (delay_min delay_max : ℚ) (net : NetOracle) (rand : RandOracle) :
    (send_tickets_process df endpoint delay_min delay_max net rand).events =
      (sendLoop endpoint delay_min delay_max net rand df.rows.length df.rows 0).2.2 ++
        [Event.processCompleted] := rfl

lemma deliveryEvents_append_final (l : List Event) :
    deliveryEvents (l ++ [Event.processCompleted]) = deliveryEvents l := by
  simp [deliveryEvents, List.filter_append, Event.isDeliveryResult]

lemma progressEvents_append_final (l : List Event) :
    progressEvents (l ++ [Event.processCompleted]) = progressEvents l := by
  simp [progressEvents, List.filter_append, Event.isProgressEvent]

lemma sleepEvents_append_final (l : List Event) :
    sleepEvents (l ++ [Event.processCompleted]) = sleepEvents l := by
  simp [sleepEvents, List.filter_append, Event.isSleepEvent]

/-- The delivery-result events of one run: one per row, in row order,
entirely determined by the transport outcome of that row's POST. -/
lemma deliveryEvents_process (df : DataFrame) (endpoint : String)
    (delay_min delay_max : ℚ) (net : NetOracle) (rand : RandOracle) :
    deliveryEvents (send_tickets_process df endpoint delay_min delay_max net rand).events =
      (List.enumFrom 0 df.rows).map (fun p => expectedItemEvent net p.1 p.2) := by
  rw [process_events_def, deliveryEvents_append_final,
    sendLoop_events endpoint delay_min delay_max net rand df.rows.length df.rows 0,
    deliveryEvents_flatMap]

/-- The progress events of one run: `completed` counts 1, 2, …, N. -/
lemma progressEvents_process (df : DataFrame) (endpoint : String)
    (delay_min delay_max : ℚ) (net : NetOracle) (rand : RandOracle) :
    progressEvents (send_tickets_process df endpoint delay_min delay_max net rand).events =
      (List.range df.rows.length).map
        (fun k => Event.progress (k + 1) df.rows.length) := by
  rw [process_events_def, progressEvents_append_final,
    progressEvents_sendLoop endpoint delay_min delay_max net rand df.rows.length df.rows 0]
  simp

/-- The sleep events of one run: the `random.uniform` draws of iterations
0 through N−2. -/
lemma sleepEvents_process (df : DataFrame) (endpoint : String)
    (delay_min delay_max : ℚ) (net : NetOracle) (rand : RandOracle) :
    sleepEvents (send_tickets_process df endpoint delay_min delay_max net rand).events =
      (List.range (df.rows.length - 1)).map
        (fun k => Event.sleep (rand delay_min delay_max k)) := by
  rw [process_events_def, sleepEvents_append_final,
    sleepEvents_sendLoop endpoint delay_min delay_max net rand df.rows 0
      df.rows.length (by omega)]
  simp

/-- Splitting the per-iteration blocks at the last row: the final block
has no sleep. -/
lemma flatMap_iterBlock_last (delay_min delay_max : ℚ) (net : NetOracle)
    (rand : RandOracle) (N : Nat) (rows : List Row) (hne : rows ≠ [])
    (hN : rows.length = N) :
    (List.enumFrom 0 rows).flatMap (iterBlock delay_min delay_max net rand N) =
      (List.enumFrom 0 rows.dropLast).flatMap
          (iterBlock delay_min delay_max net rand N) ++
        [Event.progress N N,
         Event.payloadReady (create_ticket_payload (rows.getLast hne)),
         expectedItemEvent net (N - 1) (rows.getLast hne)] := by
  have hpos : 0 < N := by
    cases rows with
    | nil => exact absurd rfl hne
    | cons r rs => simp at hN; omega
  conv_lhs => rw [← List.dropLast_append_getLast hne]
  rw [List.enumFrom_append, List.flatMap_append]
  congr 1
  have hm : 0 + rows.dropLast.length = N - 1 := by
    simp [List.length_dropLast, hN]
  rw [hm]
  have h1 : ¬ (N - 1 < N - 1) := by omega
  have h2 : N - 1 + 1 = N := by omega
  simp [List.enumFrom, iterBlock, h1, h2]

/-! ### Claims -/

/-- C1: every record whose HTTP exchange completes — whatever the status
code, 4xx/5xx included — is counted as a success and yields the success
event `(external_id, statusCode)`; exactly the records whose exchange
raised are counted as failures and yield the failure event
`(external_id, body)`.  Classification depends only on `transportOk`,
never on the status code. -/
theorem C1_transport_only_classification (df : DataFrame) (endpoint : String)
    (delay_min delay_max : ℚ) (net : NetOracle) (rand : RandOracle) :
    deliveryEvents
        (send_tickets_process df endpoint delay_min delay_max net rand).events =
      (List.enumFrom 0 df.rows).map (fun p => expectedItemEvent net p.1 p.2) ∧
    (send_tickets_process df endpoint delay_min delay_max net rand).successful_sends =
      (List.enumFrom 0 df.rows).countP (fun p => transportOk (net p.1)) ∧
    (send_tickets_process df endpoint delay_min delay_max net rand).failed_sends =
      (List.enumFrom 0 df.rows).countP (fun p => !transportOk (net p.1)) :=
  ⟨deliveryEvents_process df endpoint delay_min delay_max net rand,
   send_tickets_process_successful df endpoint delay_min delay_max net rand,
   send_tickets_process_failed df endpoint delay_min delay_max net rand⟩

/-- C2 (counterexample): on a one-record dataset whose POST completes
with status 200, the run's trace puts the progress event FIRST in the
iteration — before the payload-ready and delivery-result events — so the
claim that the progress event is emitted only after the delivery result
is false on this input. -/
theorem C2_counterexample :
    (send_tickets_process exDf1 "https://example.test" 0 0 net200 randMin).events =
      [Event.progress 1 1, Event.payloadReady exPayload1,
       Event.sendSuccess "1" 200, Event.processCompleted] ∧
    ¬ ((send_tickets_process exDf1 "https://example.test" 0 0 net200 randMin).events.indexOf
          (Event.sendSuccess "1" 200) <
        (send_tickets_process exDf1 "https://example.test" 0 0 net200 randMin).events.indexOf
          (Event.progress 1 1)) := by
  constructor
  · decide
  · decide

/-- C2 (amended): within each loop iteration for record i the progress
event `(completed = i+1, total = N)` is emitted first (src/app.py lines
152-154), then the payload-ready event before the delivery call, then
the delivery result is classified and its per-item event emitted, then
the inter-send sleep when the record is not the last; the finalization
event closes the trace. -/
theorem C2_progress_first_in_iteration (df : DataFrame) (endpoint : String)
    (delay_min delay_max : ℚ) (net : NetOracle) (rand : RandOracle) :
    (send_tickets_process df endpoint delay_min delay_max net rand).events =
      (List.enumFrom 0 df.rows).flatMap
          (fun p =>
            [Event.progress (p.1 + 1) df.rows.length,
             Event.payloadReady (create_ticket_payload p.2),
             expectedItemEvent net p.1 p.2] ++
              (if p.1 < df.rows.length - 1 then
                [Event.sleep (rand delay_min delay_max p.1)]
              else [])) ++
        [Event.processCompleted] := by
  rw [send_tickets_process_events]
  rfl

/-- C3: `send_ticket` normalizes both outcomes of one delivery attempt
and never propagates a transport failure: a raised `RequestException`
becomes the ordinary value `(False, 0, str(e))`, and a completed HTTP
exchange — any status code — becomes `(True, status_code, response.text)`. -/
theorem C3_send_ticket_normalizes_outcomes (payload : TicketPayload)
    (endpoint : String) (e : String) (response : HttpResponse) :
    send_ticket payload endpoint (.error e) = (false, 0, e) ∧
    send_ticket payload endpoint (.ok response) =
      (true, response.status_code, response.text) :=
  ⟨rfl, rfl⟩

/-- C4: whatever the per-record transport outcomes, a run over N records
performs exactly N delivery attempts, in original row order (the
delivery-result events carry the row ids in row order), and emits
exactly N progress events with `completed` equal to 1, 2, …, N. -/
theorem C4_every_record_processed (df : DataFrame) (endpoint : String)
    (delay_min delay_max : ℚ) (net : NetOracle) (rand : RandOracle) :
    (deliveryEvents
        (send_tickets_process df endpoint delay_min delay_max net rand).events).length =
      df.rows.length ∧
    (deliveryEvents
        (send_tickets_process df endpoint delay_min delay_max net rand).events).map
        Event.externalId =
      df.rows.map (fun row => pyStr (row "id")) ∧
    progressEvents
        (send_tickets_process df endpoint delay_min delay_max net rand).events =
      (List.range df.rows.length).map
        (fun k => Event.progress (k + 1) df.rows.length) := by
  refine ⟨?_, ?_, progressEvents_process df endpoint delay_min delay_max net rand⟩
  · rw [deliveryEvents_process]
    simp [List.enumFrom_length]
  · rw [deliveryEvents_process, List.map_map]
    have hcong : ∀ p ∈ List.enumFrom 0 df.rows,
        (Event.externalId ∘ fun q : Nat × Row => expectedItemEvent net q.1 q.2) p =
          pyStr (p.2 "id") := by
      intro p _
      cases h : net p.1 <;>
        simp [expectedItemEvent, Event.externalId, Function.comp_def, h]
    rw [List.map_congr_left hcong]
    exact map_snd_enumFrom (fun row => pyStr (row "id")) df.rows 0

/-- C5: at the end of every run each record has been counted exactly
once: `successful_sends + failed_sends = total_tickets`. -/
theorem C5_success_plus_failure_eq_total (df : DataFrame) (endpoint : String)
    (delay_min delay_max : ℚ) (net : NetOracle) (rand : RandOracle) :
    (send_tickets_process df endpoint delay_min delay_max net rand).successful_sends +
      (send_tickets_process df endpoint delay_min delay_max net rand).failed_sends =
      (send_tickets_process df endpoint delay_min delay_max net rand).total_tickets := by
  have h := sendLoop_count_sum endpoint delay_min delay_max net rand
    df.rows.length df.rows 0
  simpa [send_tickets_process] using h

/-- C6: on an empty dataset the guarded rate computation yields 0 with
no division, the loop body never runs (the trace holds only the
finalization event) and both counters are 0. -/
theorem C6_empty_dataset_no_fault (columns : List String) (endpoint : String)
    (delay_min delay_max : ℚ) (net : NetOracle) (rand : RandOracle) :
    (send_tickets_process ⟨columns, []⟩ endpoint delay_min delay_max net rand).success_rate =
      0 ∧
    (send_tickets_process ⟨columns, []⟩ endpoint delay_min delay_max net rand).successful_sends =
      0 ∧
    (send_tickets_process ⟨columns, []⟩ endpoint delay_min delay_max net rand).failed_sends =
      0 ∧
    (send_tickets_process ⟨columns, []⟩ endpoint delay_min delay_max net rand).events =
      [Event.processCompleted] :=
  ⟨rfl, rfl, rfl, rfl⟩

/-- C7: in every run over N > 0 records with a well-formed delay range
and a `random.uniform` sampler honouring its contract, exactly N−1
sleeps are issued — the draws of iterations 0 … N−2 — each within
`[delay_min, delay_max]`, and no sleep follows the last record: the last
record's block is followed directly by the finalization event. -/
theorem C7_delays_between_records (df : DataFrame) (endpoint : String)
    (delay_min delay_max : ℚ) (net : NetOracle) (rand : RandOracle)
    (hdelay : delay_min ≤ delay_max)
    (hrand : ∀ (x y : ℚ) (i : Nat), x ≤ y → x ≤ rand x y i ∧ rand x y i ≤ y)
    (hpos : 0 < df.rows.length) :
    sleepEvents (send_tickets_process df endpoint delay_min delay_max net rand).events =
      (List.range (df.rows.length - 1)).map
        (fun k => Event.sleep (rand delay_min delay_max k)) ∧
    (sleepEvents
        (send_tickets_process df endpoint delay_min delay_max net rand).events).length =
      df.rows.length - 1 ∧
    (∀ d : ℚ,
      Event.sleep d ∈ (send_tickets_process df endpoint delay_min delay_max net rand).events →
        delay_min ≤ d ∧ d ≤ delay_max) ∧
    (∃ pre : List Event,
      (send_tickets_process df endpoint delay_min delay_max net rand).events =
        pre ++
          [Event.progress df.rows.length df.rows.length,
           Event.payloadReady
             (create_ticket_payload (df.rows.getLast (List.length_pos.mp hpos))),
           expectedItemEvent net (df.rows.length - 1)
             (df.rows.getLast (List.length_pos.mp hpos)),
           Event.processCompleted]) := by
  refine ⟨sleepEvents_process df endpoint delay_min delay_max net rand, ?_, ?_, ?_⟩
  · rw [sleepEvents_process]
    simp
  · intro d hd
    have hmem : Event.sleep d ∈
        sleepEvents (send_tickets_process df endpoint delay_min delay_max net rand).events := by
      simp [sleepEvents, List.mem_filter, Event.isSleepEvent, hd]
    rw [sleepEvents_process] at hmem
    simp only [List.mem_map, List.mem_range] at hmem
    obtain ⟨k, -, hk⟩ := hmem
    have hb := hrand delay_min delay_max k hdelay
    cases hk
    exact hb
  · refine ⟨(List.enumFrom 0 df.rows.dropLast).flatMap
        (iterBlock delay_min delay_max net rand df.rows.length), ?_⟩
    rw [send_tickets_process_events,
      flatMap_iterBlock_last delay_min delay_max net rand df.rows.length df.rows
        (List.length_pos.mp hpos) rfl]
    simp

/-- Witness for C7: two records, delays drawn from [0, 1] by a sampler
returning the lower bound — exactly one sleep, of duration 0. -/
theorem C7_witness :
    (0 : ℚ) ≤ 1 ∧ 0 < exDf2.rows.length ∧
    sleepEvents (send_tickets_process exDf2 "https://example.test" 0 1 net200 randMin).events =
      (List.range (exDf2.rows.length - 1)).map
        (fun k => Event.sleep (randMin 0 1 k)) :=
  ⟨by norm_num, by decide,
    (C7_delays_between_records exDf2 "https://example.test" 0 1 net200 randMin
      (by norm_num) (fun x y i hxy => ⟨le_refl x, hxy⟩) (by decide)).1⟩

/-- C8: validation fails exactly when some required column is absent;
the reported missing list is the required list filtered in its own
order; row values are never inspected; and the number of delivery
attempts of the whole processing branch is N on success and 0 on
failure. -/
theorem C8_validation_gates_dispatch (df : DataFrame) (endpoint : String)
    (delay_min delay_max : ℚ) (net : NetOracle) (rand : RandOracle) :
    (validate_csv_structure df = false ↔
      ∃ c ∈ required_columns, c ∉ df.columns) ∧
    (missing_columns df).Sublist required_columns ∧
    (∀ c : String,
      c ∈ missing_columns df ↔ c ∈ required_columns ∧ c ∉ df.columns) ∧
    (∀ rows2 : List Row,
      validate_csv_structure ⟨df.columns, rows2⟩ = validate_csv_structure df) ∧
    deliveryAttempts (process_csv df endpoint delay_min delay_max net rand) =
      (if validate_csv_structure df then df.rows.length else 0) := by
  have hmem : ∀ c : String,
      c ∈ missing_columns df ↔ c ∈ required_columns ∧ c ∉ df.columns := by
    intro c
    simp [missing_columns, List.mem_filter, List.contains, List.elem_iff]
  refine ⟨?_, List.filter_sublist _, hmem, fun rows2 => rfl, ?_⟩
  · rw [show validate_csv_structure df = (missing_columns df).isEmpty from rfl,
      List.isEmpty_eq_false, Ne, List.eq_nil_iff_forall_not_mem]
    push_neg
    simp only [hmem]
  · by_cases hv : validate_csv_structure df = true
    · simp [process_csv, hv, deliveryAttempts, deliveryEvents_process,
        List.enumFrom_length]
    · simp [process_csv, hv, deliveryAttempts]

/-- C9: payload construction round-trips every field: reading the six
payload fields back yields exactly the `str(...)` text representation of
the record's six cells, verbatim (`pyStr` does not truncate or escape —
it is the identity on string cells, non-ASCII included). -/
theorem C9_payload_round_trip (row : Row) :
    (create_ticket_payload row).external_id = pyStr (row "id") ∧
    (create_ticket_payload row).source_channel = pyStr (row "channel") ∧
    (create_ticket_payload row).customer.name = pyStr (row "customer_name") ∧
    (create_ticket_payload row).content.subject = pyStr (row "subject") ∧
    (create_ticket_payload row).content.body = pyStr (row "fullMessage") ∧
    (create_ticket_payload row).ai_analysis.sentiment = pyStr (row "sentiment_name") ∧
    (∀ s : String, pyStr (.str s) = s) :=
  ⟨rfl, rfl, rfl, rfl, rfl, rfl, fun _ => rfl⟩

/-- C10: on an empty dataset the concluding branch compares
`successful_sends == total_tickets` as `0 == 0`, so the run takes the
all-successful (balloons) branch and not the warning branch. -/
theorem C10_empty_dataset_celebrates (columns : List String) (endpoint : String)
    (delay_min delay_max : ℚ) (net : NetOracle) (rand : RandOracle) :
    (send_tickets_process ⟨columns, []⟩ endpoint delay_min delay_max net rand).successful_sends =
      0 ∧
    (send_tickets_process ⟨columns, []⟩ endpoint delay_min delay_max net rand).total_tickets =
      0 ∧
    (send_tickets_process ⟨columns, []⟩ endpoint delay_min delay_max net rand).all_success_message =
      true ∧
    (send_tickets_process ⟨columns, []⟩ endpoint delay_min delay_max net rand).error_warning_message =
      false :=
  ⟨rfl, rfl, rfl, rfl⟩

end SupportFlow
